import Mathlib

/-!
Shallow embedding of the LensCritique client (a peer photo-critique app over a
Supabase backend) and proofs of the specified properties.

The embedding follows the source files:
* `src/unnamed/part_001` (types.ts): the `Profile`, `Post`, `Review` records
  and the `Category` enumeration;
* `src/App.tsx`: `fetchProfile` (session/profile bootstrap with the
  self-healing upsert) and `ProtectedRoute` (the route guard);
* `src/pages/Onboarding.tsx`: `handleFinish`;
* `src/pages/CreatePost.tsx`: `handleImageChange` and `handleCreate`
  (image upload loop and post insert), the Dashboard `fetchPosts` query
  builder, and the admin SQL script defining the two remote procedures
  `increment_post_reviews` and `decrement_profile_unlock_counter` together
  with the column defaults of the `profiles` and `posts` tables;
* `src/unnamed/part_000` (ReviewPage): `handleSubmit`;
* `src/pages/AdminPanel.tsx`: `makePostLive`, `deletePost`.

Backend calls are modelled explicitly: the result of each remote call the
handler awaits is a parameter of the embedded handler, and each handler
returns a record of the requests it issued and the local state it set.
-/

namespace RateLook

/-- The `Category` union type of types.ts. -/
inductive Category
  | Dating
  | Professional
  | Fashion
  | Social
  | Lifestyle
deriving DecidableEq, Repr

/-- The `CATEGORIES` constant of types.ts. -/
def CATEGORIES : List Category :=
  [.Dating, .Professional, .Fashion, .Social, .Lifestyle]

/-- A row of the `profiles` table (the `Profile` interface of types.ts).
`posts_remaining_to_unlock` is an `Option Int`: the column is a nullable
`int` in the schema and the client guards reads of it with `|| 0`. -/
structure Profile where
  id : String
  username : String
  avatar_url : Option String
  interests : Option (List Category)
  total_confidence : Int
  total_style : Int
  total_approachability : Int
  review_count : Int
  posts_remaining_to_unlock : Option Int
deriving DecidableEq, Repr

/-- The read `profile.posts_remaining_to_unlock || 0` used by CreatePost:
a missing (null) counter coerces to 0. -/
def counterOrZero (p : Profile) : Int :=
  p.posts_remaining_to_unlock.getD 0

/-- The guard condition `!profile.interests || profile.interests.length === 0`
of `ProtectedRoute` in App.tsx: the interest list is absent or empty. -/
def interestsEmpty (p : Profile) : Bool :=
  match p.interests with
  | none => true
  | some l => l.isEmpty

/-- What `ProtectedRoute` renders: a redirect to `/auth`, the syncing-profile
placeholder, a redirect to `/onboarding`, or its children. -/
inductive RouteDecision
  | toAuth
  | syncingProfile
  | toOnboarding
  | allowChildren
deriving DecidableEq, Repr

/-- `ProtectedRoute` of App.tsx. The session is modelled by the id of its
user when present. -/
def ProtectedRoute (session : Option String) (profile : Option Profile) :
    RouteDecision :=
  match session with
  | none => .toAuth
  | some _ =>
    match profile with
    | none => .syncingProfile
    | some p => if interestsEmpty p then .toOnboarding else .allowChildren

/-- The `update` payload of `handleFinish` in Onboarding.tsx applied to the
profile row matched by `eq('id', user.id)`: it writes the selected interests
and resets the unlock counter to 3. -/
def onboardingUpdate (selectedInterests : List Category) (p : Profile) :
    Profile :=
  { p with
    interests := some selectedInterests
    posts_remaining_to_unlock := some 3 }

/-- `handleFinish` of Onboarding.tsx, acting on the current user's profile
row `p`. It returns the updated row, or `none` when it returns early: with
an empty selection (`selectedInterests.length === 0`) or without an
authenticated user. -/
def handleFinish (selectedInterests : List Category) (user : Option String)
    (p : Profile) : Option Profile :=
  if selectedInterests.length = 0 then none
  else
    match user with
    | none => none
    | some _ => some (onboardingUpdate selectedInterests p)

/-- The feed filter toggle of the Dashboard. -/
inductive FeedFilter
  | recommended
  | recent
deriving DecidableEq, Repr

/-- The query `fetchPosts` of the Dashboard builds: `eq('is_live', true)`,
`neq('user_id', profile.id)`, an optional `overlaps('categories', …)` filter,
`order('created_at', { ascending: false })` and `limit(20)`. -/
structure PostsQuery where
  is_live_eq : Bool
  user_id_neq : String
  overlapsCategories : Option (List Category)
  orderByCreatedAtDesc : Bool
  queryLimit : Nat
deriving DecidableEq, Repr

/-- The query builder of `fetchPosts` in the Dashboard (CreatePost.tsx
bundle): the `overlaps` filter is added exactly when the filter is
`recommended` and `profile.interests` is present and non-empty, and its
argument is `profile.interests` itself. -/
def fetchPostsQuery (filter : FeedFilter) (profile : Profile) : PostsQuery :=
  let base : PostsQuery :=
    { is_live_eq := true
      user_id_neq := profile.id
      overlapsCategories := none
      orderByCreatedAtDesc := true
      queryLimit := 20 }
  if filter = .recommended then
    match profile.interests with
    | some ints =>
      if ints.length > 0 then { base with overlapsCategories := some ints }
      else base
    | none => base
  else base

/-- Whether `needle` is a prefix of `hay`, on character lists. -/
def startsWithChars (hay needle : List Char) : Bool :=
  match hay, needle with
  | _, [] => true
  | [], _ :: _ => false
  | a :: as, b :: bs => a = b && startsWithChars as bs

/-- Whether `needle` occurs as a contiguous run of `hay`. -/
def hasSubChars (needle : List Char) : List Char → Bool
  | [] => startsWithChars [] needle
  | a :: as => startsWithChars (a :: as) needle || hasSubChars needle as

/-- JavaScript `s.includes(t)`: `t` occurs as a substring of `s`. -/
def stringIncludes (s t : String) : Bool :=
  hasSubChars t.data s.data

/-- JavaScript `s.toLowerCase()` on the ASCII messages the code matches. -/
def toLowerString (s : String) : String :=
  String.mk (s.data.map Char.toLower)

/-- JavaScript `q.trim()`: strip leading and trailing whitespace. -/
def jsTrim (s : String) : String :=
  String.mk (((s.data.dropWhile Char.isWhitespace).reverse.dropWhile
    Char.isWhitespace).reverse)

/-- JavaScript `email.split('@')[0]`: the part of the string before the
first `@` (the whole string when there is none). -/
def localPart (email : String) : String :=
  String.mk (email.data.takeWhile (fun c => c ≠ '@'))

/-- The fallback display name `session?.user?.email?.split('@')[0] || 'user'`
of the self-healing upsert in App.tsx. -/
def fallbackUsername (email : Option String) : String :=
  match email with
  | none => "user"
  | some e => if localPart e = "" then "user" else localPart e

/-- The profile row written by the self-healing upsert in `fetchProfile`
(App.tsx). The upsert provides only `id`, `username` and `interests: []`;
every other column takes its default from the `profiles` schema in the
admin SQL script: the three totals and `review_count` default to 0,
`posts_remaining_to_unlock` defaults to 3 and `avatar_url` to null. -/
def synthesizeProfile (userId : String) (email : Option String) : Profile :=
  { id := userId
    username := fallbackUsername email
    avatar_url := none
    interests := some []
    total_confidence := 0
    total_style := 0
    total_approachability := 0
    review_count := 0
    posts_remaining_to_unlock := some 3 }

/-- An error object of the backend client: a code and a message. -/
structure DbError where
  code : String
  message : String
deriving DecidableEq, Repr

/-- What `fetchProfile` in App.tsx does with the lookup result: surface the
missing-schema condition, set a profile (the fetched one, or the
self-healed one), or log the failure and set nothing. -/
inductive FetchOutcome
  | schemaMissing
  | profileSet (p : Profile)
  | fetchFailed
deriving DecidableEq, Repr

/-- The body of `fetchProfile` in App.tsx, as a function of the
`select().single()` result for the current user id. Error code `42P01` (or
the relation-missing message) surfaces the schema error; `PGRST116` (no row)
triggers the self-healing upsert of `synthesizeProfile`; any other error is
logged. `sessionEmail` stands for the `session?.user?.email` the body reads:
it is the React `session` state captured by the closure that created this
call, not the session of the identity being fetched — see
`bootstrapFetchProfile` for the value the reachable call sites capture. -/
def fetchProfile (userId : String) (sessionEmail : Option String)
    (lookup : Except DbError Profile) : FetchOutcome :=
  match lookup with
  | .ok data => .profileSet data
  | .error e =>
    if e.code = "42P01" ∨
        stringIncludes (toLowerString e.message) "relation \x22profiles\x22 does not exist" then
      .schemaMissing
    else if e.code = "PGRST116" then
      .profileSet (synthesizeProfile userId sessionEmail)
    else
      .fetchFailed

/-- `fetchProfile` as the reachable self-heal call sites invoke it. The only
call sites that can hit the PGRST116 branch are `initAuth` and the
`onAuthStateChange` callback, both closures created by the first-render
`useEffect` in App.tsx while the `session` state is still null; `setSession`
on the preceding line does not update the binding those closures captured,
so `session?.user?.email` is undefined (`none`) whenever the self-heal runs.
The route-level callers are fresh closures, but they render only once a
profile already exists, and the application never deletes a profile, so they
never reach the self-heal branch. -/
def bootstrapFetchProfile (userId : String) (lookup : Except DbError Profile) :
    FetchOutcome :=
  fetchProfile userId none lookup

/-- A client-side selected image file (only its name is carried). -/
structure ImageFile where
  name : String
deriving DecidableEq, Repr

/-- The `type` of a toast notification in CreatePost.tsx. -/
inductive NotificationType
  | success
  | error
  | rls
deriving DecidableEq, Repr

/-- The `Notification` interface of CreatePost.tsx. -/
structure Notification where
  message : String
  type : NotificationType
deriving DecidableEq, Repr

/-- The result of `handleImageChange` in CreatePost.tsx: the new `images`
state, the notification set (if any), and how many backend calls the handler
issued (it issues none on either path). -/
structure ImageChangeResult where
  images : List ImageFile
  notification : Option Notification
  backendCalls : Nat
deriving DecidableEq, Repr

/-- `handleImageChange` of CreatePost.tsx on a non-null file list: adding
`newFiles` to the current `images` is rejected with an error notification
when the combined count exceeds 3, and appends otherwise. -/
def handleImageChange (images newFiles : List ImageFile) : ImageChangeResult :=
  if images.length + newFiles.length > 3 then
    { images := images
      notification := some ⟨"Maximum 3 images allowed", .error⟩
      backendCalls := 0 }
  else
    { images := images ++ newFiles
      notification := none
      backendCalls := 0 }

/-- The row `handleCreate` inserts into `posts` (its `postPayload` object). -/
structure PostPayload where
  user_id : String
  categories : List Category
  image_urls : List String
  questions : List String
  is_live : Bool
  reviews_required : Int
  reviews_received : Int
deriving DecidableEq, Repr

/-- The sequential upload loop of `handleCreate`: `env k` is the storage
response to the upload of image `k` (an error message, or the public URL).
`uploadImages env i n` runs the uploads `i, i+1, …, i+n-1` in order and
returns how many uploads were attempted together with either the first
error or the accumulated URL list; the first failure aborts the rest. -/
def uploadImages (env : Nat → Except String String) (i : Nat) :
    Nat → Nat × Except String (List String)
  | 0 => (0, .ok [])
  | Nat.succ k =>
    match env i with
    | .error msg => (1, .error msg)
    | .ok url =>
      match uploadImages env (i + 1) k with
      | (a, .error msg) => (a + 1, .error msg)
      | (a, .ok urls) => (a + 1, .ok (url :: urls))

/-- The notification `handleCreate` sets when an image upload fails: the
row-level-security pattern gets the persistent `rls` notification, any other
storage error the generic error toast. -/
def uploadErrorNotification (msg : String) : Notification :=
  if stringIncludes msg "row-level security" then
    ⟨"Storage RLS Error: You don\x27t have permission to upload files. Go to Admin Panel > SQL Fix Guide.", .rls⟩
  else
    ⟨"Storage error: " ++ msg ++ ". Ensure a \x27photos\x27 bucket exists.", .error⟩

/-- The notification `handleCreate` sets when the row insert fails. -/
def insertErrorNotification (e : DbError) : Notification :=
  if stringIncludes e.message "row-level security" then
    ⟨"Table RLS Error: Permission denied to insert post. Check Admin Panel > SQL Fix Guide.", .rls⟩
  else
    ⟨e.message, .error⟩

/-- What one run of `handleCreate` did: the notification it set, how many
`auth.getSession` lookups and how many storage uploads it issued, and the
payload it handed to the `posts` insert call (`none` when no insert call
was made). -/
structure CreateResult where
  notification : Option Notification
  sessionLookups : Nat
  uploadsAttempted : Nat
  inserted : Option PostPayload
deriving Repr

/-- `handleCreate` of CreatePost.tsx. Parameters mirror the component state
and the awaited backend responses: `session` is the `getSession` result
(`Except` for `sessionError`, `Option` for a missing user), `env` the
storage responses of the upload loop, and `insertResult` the error of the
`posts` insert when it fails. Empty images or categories return early with
an error notification before any backend call. -/
def handleCreate (images : List ImageFile) (selectedCategories : List Category)
    (questions : List String) (profile : Profile)
    (session : Except String (Option String))
    (env : Nat → Except String String) (insertResult : Option DbError) :
    CreateResult :=
  if images.length = 0 then
    { notification := some ⟨"Please upload at least one photo.", .error⟩
      sessionLookups := 0
      uploadsAttempted := 0
      inserted := none }
  else if selectedCategories.length = 0 then
    { notification := some ⟨"Please select at least one category.", .error⟩
      sessionLookups := 0
      uploadsAttempted := 0
      inserted := none }
  else
    match session with
    | .error _ =>
      { notification := some ⟨"Authentication session not found. Please log in again.", .error⟩
        sessionLookups := 1
        uploadsAttempted := 0
        inserted := none }
    | .ok none =>
      { notification := some ⟨"Authentication session not found. Please log in again.", .error⟩
        sessionLookups := 1
        uploadsAttempted := 0
        inserted := none }
    | .ok (some userId) =>
      match uploadImages env 0 images.length with
      | (a, .error msg) =>
        { notification := some (uploadErrorNotification msg)
          sessionLookups := 1
          uploadsAttempted := a
          inserted := none }
      | (a, .ok imageUrls) =>
        let isLive : Bool := decide (counterOrZero profile ≤ 0)
        let cleanedQuestions := questions.filter (fun q => jsTrim q ≠ "")
        let postPayload : PostPayload :=
          { user_id := userId
            categories := selectedCategories
            image_urls := imageUrls
            questions := cleanedQuestions
            is_live := isLive
            reviews_required := 3
            reviews_received := 0 }
        match insertResult with
        | some e =>
          { notification := some (insertErrorNotification e)
            sessionLookups := 1
            uploadsAttempted := a
            inserted := some postPayload }
        | none =>
          { notification := some ⟨"Post Published Successfully!", .success⟩
            sessionLookups := 1
            uploadsAttempted := a
            inserted := some postPayload }

/-- A slot of the `posts` table at a given uuid key: never allocated,
holding a row, or left by a deleted row. Ids come from `gen_random_uuid()`,
so a deleted id is never reallocated; the tombstone records that. -/
inductive Slot
  | free
  | present (p : PostPayload)
  | deleted
deriving DecidableEq, Repr

/-- The `posts` table, keyed by id. -/
abbrev PostsTable := String → Slot

/-- The `profiles` table, keyed by id. -/
abbrev ProfilesTable := String → Option Profile

/-- The stored procedure `increment_post_reviews` of the admin SQL script:
`UPDATE posts SET reviews_received = reviews_received + 1 WHERE id = post_id_input`. -/
def increment_post_reviews (t : PostsTable) (post_id_input : String) :
    PostsTable :=
  fun i =>
    if i = post_id_input then
      match t i with
      | Slot.present p =>
        Slot.present { p with reviews_received := p.reviews_received + 1 }
      | s => s
    else t i

/-- `GREATEST(0, posts_remaining_to_unlock - 1)` of the stored procedure
`decrement_profile_unlock_counter`; a null counter yields 0 (in Postgres
`GREATEST` ignores null arguments and `NULL - 1` is null). -/
def greatestZeroDec : Option Int → Int
  | none => 0
  | some c => max 0 (c - 1)

/-- The stored procedure `decrement_profile_unlock_counter` of the admin SQL
script: `UPDATE profiles SET posts_remaining_to_unlock =
GREATEST(0, posts_remaining_to_unlock - 1) WHERE id = user_id_input`. -/
def decrement_profile_unlock_counter (t : ProfilesTable)
    (user_id_input : String) : ProfilesTable :=
  fun i =>
    if i = user_id_input then
      (t i).map fun pr =>
        { pr with
          posts_remaining_to_unlock :=
            some (greatestZeroDec pr.posts_remaining_to_unlock) }
    else t i

/-- A row of the `reviews` table (the `Review` interface of types.ts). -/
structure Review where
  post_id : String
  reviewer_id : String
  confidence_score : Int
  style_score : Int
  approachability_score : Int
  answers : List String
  general_feedback : String
  is_anonymous : Bool
deriving DecidableEq, Repr

/-- The three slider ratings of the ReviewPage. -/
structure Ratings where
  confidence : Int
  style : Int
  approachability : Int
deriving DecidableEq, Repr

/-- The backend state the review submission touches. -/
structure Backend where
  posts : PostsTable
  profiles : ProfilesTable
  reviews : List Review

/-- `handleSubmit` of the ReviewPage (src/unnamed/part_000), on the path
that completes: it inserts the review row, then calls the two stored
procedures `increment_post_reviews` (on the reviewed post) and
`decrement_profile_unlock_counter` (on the reviewing user). Without an
authenticated user it throws before any write. -/
def handleSubmit (b : Backend) (postId : String) (user : Option String)
    (ratings : Ratings) (answers : List String) (generalFeedback : String)
    (isAnonymous : Bool) : Backend :=
  match user with
  | none => b
  | some uid =>
    let b1 : Backend :=
      { b with
        reviews := b.reviews ++
          [{ post_id := postId
             reviewer_id := uid
             confidence_score := ratings.confidence
             style_score := ratings.style
             approachability_score := ratings.approachability
             answers := answers
             general_feedback := generalFeedback
             is_anonymous := isAnonymous }] }
    let b2 : Backend := { b1 with posts := increment_post_reviews b1.posts postId }
    { b2 with profiles := decrement_profile_unlock_counter b2.profiles uid }

/-- The `posts` insert of `handleCreate` (also of the admin instant-post and
the demo seeding) at a fresh uuid: inserting at an id that was ever
allocated fails on the primary key and leaves the table unchanged. -/
def insertPost (t : PostsTable) (postId : String) (payload : PostPayload) :
    PostsTable :=
  match t postId with
  | Slot.free => fun i => if i = postId then Slot.present payload else t i
  | _ => t

/-- `makePostLive` of AdminPanel.tsx:
`update({ is_live: true }).eq('id', postId)`. -/
def makePostLive (t : PostsTable) (postId : String) : PostsTable :=
  fun i =>
    if i = postId then
      match t i with
      | Slot.present p => Slot.present { p with is_live := true }
      | s => s
    else t i

/-- `deletePost` of AdminPanel.tsx: `delete().eq('id', postId)`. -/
def deletePost (t : PostsTable) (postId : String) : PostsTable :=
  fun i =>
    if i = postId then
      match t i with
      | Slot.present _ => Slot.deleted
      | s => s
    else t i

/-- The operations of the application that write the `posts` table: the
insert at creation/seeding, the admin make-live override, the admin delete,
and the `increment_post_reviews` procedure issued by review submission.
No other call site in the repository mutates `posts`. -/
inductive AppOp
  | insert (postId : String) (payload : PostPayload)
  | makePostLive (postId : String)
  | deletePost (postId : String)
  | incrementPostReviews (postId : String)
deriving DecidableEq, Repr

/-- One application operation applied to the `posts` table. -/
def applyOp (t : PostsTable) : AppOp → PostsTable
  | .insert postId payload => insertPost t postId payload
  | .makePostLive postId => makePostLive t postId
  | .deletePost postId => deletePost t postId
  | .incrementPostReviews postId => increment_post_reviews t postId

/-- A sequence of application operations applied in order. -/
def applyOps (t : PostsTable) (ops : List AppOp) : PostsTable :=
  ops.foldl applyOp t

/-- A concrete profile used to evaluate the theorems on a concrete input. -/
def sampleProfile : Profile :=
  { id := "alice-id"
    username := "alice"
    avatar_url := none
    interests := some [Category.Social]
    total_confidence := 0
    total_style := 0
    total_approachability := 0
    review_count := 0
    posts_remaining_to_unlock := some 2 }

/-- A concrete post row used to evaluate the theorems on a concrete input. -/
def samplePost : PostPayload :=
  { user_id := "author-1"
    categories := [Category.Social]
    image_urls := ["https://img.example/1.png"]
    questions := ["Is the lighting okay here?"]
    is_live := true
    reviews_required := 3
    reviews_received := 0 }

/-- A concrete backend state holding `samplePost` and `sampleProfile`. -/
def sampleBackend : Backend :=
  { posts := fun i => if i = "post-1" then Slot.present samplePost else Slot.free
    profiles := fun i => if i = "alice-id" then some sampleProfile else none
    reviews := [] }

/-- Whether an awaited backend call came back as an error. -/
def isErrorResult {ε α : Type} : Except ε α → Bool
  | .error _ => true
  | .ok _ => false

/-- The upload loop propagates the first failure: when upload `i + j` of the
batch fails, the loop result is an error and at most `j + 1` uploads were
attempted (none after the first failing one). -/
theorem uploadImages_fail (env : Nat → Except String String) :
    ∀ (n i j : Nat), j < n → isErrorResult (env (i + j)) = true →
      isErrorResult (uploadImages env i n).2 = true ∧
        (uploadImages env i n).1 ≤ j + 1 := by
  intro n
  induction n with
  | zero => intro i j hj _; exact absurd hj (Nat.not_lt_zero j)
  | succ k ih =>
    intro i j hj he
    cases henv : env i with
    | error msg =>
      have heq : uploadImages env i (k + 1) = (1, Except.error msg) := by
        simp [uploadImages, henv]
      rw [heq]
      exact ⟨rfl, by omega⟩
    | ok url =>
      cases j with
      | zero =>
        rw [Nat.add_zero, henv] at he
        simp [isErrorResult] at he
      | succ j' =>
        have hj' : j' < k := by omega
        have he' : isErrorResult (env (i + 1 + j')) = true := by
          have harg : i + 1 + j' = i + (j' + 1) := by omega
          rw [harg]; exact he
        obtain ⟨h1, h2⟩ := ih (i + 1) j' hj' he'
        rcases hrec : uploadImages env (i + 1) k with ⟨a, r⟩
        rw [hrec] at h1 h2
        cases r with
        | error msg =>
          have heq : uploadImages env i (k + 1) = (a + 1, Except.error msg) := by
            simp [uploadImages, henv, hrec]
          rw [heq]
          exact ⟨rfl, by omega⟩
        | ok urls => simp [isErrorResult] at h1

/-- C1: a post created through the post-publication flow is inserted with
its liveness flag true exactly when the author's unlock counter (read as
`posts_remaining_to_unlock || 0`) is ≤ 0 at the moment of creation. -/
theorem handleCreate_isLive_iff_counter_nonpositive :
    ∀ (images : List ImageFile) (cats : List Category) (qs : List String)
      (profile : Profile) (session : Except String (Option String))
      (env : Nat → Except String String) (ins : Option DbError)
      (payload : PostPayload),
      (handleCreate images cats qs profile session env ins).inserted = some payload →
      (payload.is_live = true ↔ counterOrZero profile ≤ 0) := by
  intro images cats qs profile session env ins payload h
  unfold handleCreate at h
  by_cases h1 : images.length = 0
  · rw [if_pos h1] at h
    simp at h
  · rw [if_neg h1] at h
    by_cases h2 : cats.length = 0
    · rw [if_pos h2] at h
      simp at h
    · rw [if_neg h2] at h
      cases session with
      | error msg => simp at h
      | ok s =>
        cases s with
        | none => simp at h
        | some uid =>
          rcases hu : uploadImages env 0 images.length with ⟨a, r⟩
          rw [hu] at h
          cases r with
          | error msg => simp at h
          | ok urls =>
            cases ins with
            | some e =>
              simp only [Option.some.injEq] at h
              rw [← h]
              simp [decide_eq_true_iff]
            | none =>
              simp only [Option.some.injEq] at h
              rw [← h]
              simp [decide_eq_true_iff]

/-- Witness for C1 at a concrete input: a successful creation by a profile
whose counter is 2 (the inserted payload computes to one with
`is_live = false`). -/
theorem handleCreate_isLive_iff_counter_nonpositive_witness :
    (({ user_id := "alice-id"
        categories := [Category.Social]
        image_urls := ["https://img.example/1.png"]
        questions := ["q"]
        is_live := false
        reviews_required := 3
        reviews_received := 0 } : PostPayload).is_live = true ↔
      counterOrZero sampleProfile ≤ 0) :=
  handleCreate_isLive_iff_counter_nonpositive
    [⟨"a.png"⟩] [Category.Social] ["", "q", ""] sampleProfile
    (Except.ok (some "alice-id")) (fun _ => Except.ok "https://img.example/1.png")
    none
    { user_id := "alice-id"
      categories := [Category.Social]
      image_urls := ["https://img.example/1.png"]
      questions := ["q"]
      is_live := false
      reviews_required := 3
      reviews_received := 0 }
    (by decide)

/-- C4: a post-creation attempt in which some image upload fails aborts the
remaining uploads (no upload beyond the first failing one is attempted) and
performs no row insert. -/
theorem handleCreate_upload_failure_aborts_without_insert :
    ∀ (images : List ImageFile) (cats : List Category) (qs : List String)
      (profile : Profile) (session : Except String (Option String))
      (env : Nat → Except String String) (ins : Option DbError) (j : Nat),
      j < images.length → isErrorResult (env j) = true →
      (handleCreate images cats qs profile session env ins).inserted = none ∧
        (handleCreate images cats qs profile session env ins).uploadsAttempted ≤ j + 1 := by
  intro images cats qs profile session env ins j hj he
  unfold handleCreate
  by_cases h1 : images.length = 0
  · omega
  · rw [if_neg h1]
    by_cases h2 : cats.length = 0
    · rw [if_pos h2]
      exact ⟨rfl, Nat.zero_le _⟩
    · rw [if_neg h2]
      cases session with
      | error msg => exact ⟨rfl, Nat.zero_le _⟩
      | ok s =>
        cases s with
        | none => exact ⟨rfl, Nat.zero_le _⟩
        | some uid =>
          have hfail := uploadImages_fail env images.length 0 j hj
            (by rw [Nat.zero_add]; exact he)
          rcases hu : uploadImages env 0 images.length with ⟨a, r⟩
          rw [hu] at hfail
          cases r with
          | error msg => exact ⟨rfl, hfail.2⟩
          | ok urls => simp [isErrorResult] at hfail

/-- Witness for C4 at a concrete input: the first of two uploads fails. -/
theorem handleCreate_upload_failure_aborts_without_insert_witness :
    (handleCreate [⟨"a.png"⟩, ⟨"b.png"⟩] [Category.Social] ["q"] sampleProfile
        (Except.ok (some "alice-id"))
        (fun k => if k = 0 then Except.error "violates row-level security policy"
          else Except.ok "url") none).inserted = none ∧
      (handleCreate [⟨"a.png"⟩, ⟨"b.png"⟩] [Category.Social] ["q"] sampleProfile
        (Except.ok (some "alice-id"))
        (fun k => if k = 0 then Except.error "violates row-level security policy"
          else Except.ok "url") none).uploadsAttempted ≤ 0 + 1 :=
  handleCreate_upload_failure_aborts_without_insert
    [⟨"a.png"⟩, ⟨"b.png"⟩] [Category.Social] ["q"] sampleProfile
    (Except.ok (some "alice-id"))
    (fun k => if k = 0 then Except.error "violates row-level security policy"
      else Except.ok "url") none 0 (by decide) (by decide)

/-- C3: for every profile, immediately after the onboarding step completes
successfully, that profile's interest list is non-empty and its unlock
counter equals 3. -/
theorem handleFinish_interests_nonempty_counter_three :
    ∀ (sel : List Category) (user : Option String) (p p' : Profile),
      handleFinish sel user p = some p' →
      interestsEmpty p' = false ∧ p'.posts_remaining_to_unlock = some 3 := by
  intro sel user p p' h
  unfold handleFinish at h
  by_cases hsel : sel.length = 0
  · simp [hsel] at h
  · cases user with
    | none => simp [hsel] at h
    | some u =>
      simp only [hsel, if_false, Option.some.injEq] at h
      cases sel with
      | nil => exact absurd rfl hsel
      | cons a l =>
        refine ⟨?_, ?_⟩
        · rw [← h]
          rfl
        · rw [← h]
          rfl

/-- Witness for C3 at a concrete input: onboarding with the single interest
`Fashion` on `sampleProfile`. -/
theorem handleFinish_interests_nonempty_counter_three_witness :
    interestsEmpty (onboardingUpdate [Category.Fashion] sampleProfile) = false ∧
      (onboardingUpdate [Category.Fashion] sampleProfile).posts_remaining_to_unlock =
        some 3 :=
  handleFinish_interests_nonempty_counter_three [Category.Fashion]
    (some "alice-id") sampleProfile
    (onboardingUpdate [Category.Fashion] sampleProfile) rfl

/-- C5: for an authenticated session with a loaded profile, the route guard
redirects to onboarding exactly when the profile's interest list is empty or
absent, whatever the rest of the profile's state. -/
theorem ProtectedRoute_onboarding_iff_interests_empty :
    ∀ (s : String) (p : Profile),
      ProtectedRoute (some s) (some p) = RouteDecision.toOnboarding ↔
        interestsEmpty p = true := by
  intro s p
  unfold ProtectedRoute
  by_cases h : interestsEmpty p <;> simp [h]

/-- Witness for C5 at a concrete input: `sampleProfile` has an interest, so
the guard does not send it to onboarding. -/
theorem ProtectedRoute_onboarding_iff_interests_empty_witness :
    ProtectedRoute (some "session-user") (some sampleProfile) =
        RouteDecision.toOnboarding ↔ interestsEmpty sampleProfile = true :=
  ProtectedRoute_onboarding_iff_interests_empty "session-user" sampleProfile

/-- C6: the interest list written by onboarding is exactly the list later
passed as the `overlaps` filter against a post's categories when the
recommended feed is fetched for that profile. -/
theorem onboarding_interests_roundtrip_to_recommended_filter :
    ∀ (sel : List Category) (user : Option String) (p p' : Profile),
      handleFinish sel user p = some p' →
      (fetchPostsQuery FeedFilter.recommended p').overlapsCategories = some sel := by
  intro sel user p p' h
  unfold handleFinish at h
  by_cases hsel : sel.length = 0
  · simp [hsel] at h
  · cases user with
    | none => simp [hsel] at h
    | some u =>
      simp only [hsel, if_false, Option.some.injEq] at h
      rw [← h]
      unfold fetchPostsQuery onboardingUpdate
      simp only [if_pos rfl]
      have hpos : sel.length > 0 := Nat.pos_of_ne_zero hsel
      simp [hpos]

/-- Witness for C6 at a concrete input: the interests `[Fashion, Dating]`
chosen at onboarding reappear as the recommended feed's overlap filter. -/
theorem onboarding_interests_roundtrip_to_recommended_filter_witness :
    (fetchPostsQuery FeedFilter.recommended
        (onboardingUpdate [Category.Fashion, Category.Dating] sampleProfile)).overlapsCategories =
      some [Category.Fashion, Category.Dating] :=
  onboarding_interests_roundtrip_to_recommended_filter
    [Category.Fashion, Category.Dating] (some "alice-id") sampleProfile
    (onboardingUpdate [Category.Fashion, Category.Dating] sampleProfile) rfl

/-- C7 (the code is wrong here): at the reachable self-heal call sites the
closure-captured session is still null, so a first-time identity with email
`alice@example.com` gets the fallback username `user`, not the local part
`alice` the spec promises; the empty interest set and the schema-default
counter 3 do conform. -/
theorem bootstrap_selfheal_username_is_user_not_email :
    bootstrapFetchProfile "alice-id"
        (.error ⟨"PGRST116", "JSON object requested, multiple (or no) rows returned"⟩) =
        FetchOutcome.profileSet (synthesizeProfile "alice-id" none) ∧
      (synthesizeProfile "alice-id" none).username = "user" ∧
      localPart "alice@example.com" = "alice" ∧
      (synthesizeProfile "alice-id" none).username ≠ localPart "alice@example.com" ∧
      (synthesizeProfile "alice-id" none).interests = some [] ∧
      (synthesizeProfile "alice-id" none).posts_remaining_to_unlock = some 3 :=
  ⟨by decide, rfl, by decide, by decide, rfl, rfl⟩

/-- C8: an attempt to add images that would bring a post's image count above
3 is rejected client-side: the error notification is shown, the image list
is unchanged, and no backend call is made. -/
theorem handleImageChange_rejects_above_three :
    ∀ (images newFiles : List ImageFile),
      images.length + newFiles.length > 3 →
      (handleImageChange images newFiles).images = images ∧
        (handleImageChange images newFiles).notification =
          some ⟨"Maximum 3 images allowed", NotificationType.error⟩ ∧
        (handleImageChange images newFiles).backendCalls = 0 := by
  intro images newFiles h
  unfold handleImageChange
  rw [if_pos h]
  exact ⟨rfl, rfl, rfl⟩

/-- Witness for C8 at a concrete input: adding two files to a two-image
selection. -/
theorem handleImageChange_rejects_above_three_witness :
    (handleImageChange [⟨"a.png"⟩, ⟨"b.png"⟩] [⟨"c.png"⟩, ⟨"d.png"⟩]).images =
        [⟨"a.png"⟩, ⟨"b.png"⟩] ∧
      (handleImageChange [⟨"a.png"⟩, ⟨"b.png"⟩] [⟨"c.png"⟩, ⟨"d.png"⟩]).notification =
        some ⟨"Maximum 3 images allowed", NotificationType.error⟩ ∧
      (handleImageChange [⟨"a.png"⟩, ⟨"b.png"⟩] [⟨"c.png"⟩, ⟨"d.png"⟩]).backendCalls = 0 :=
  handleImageChange_rejects_above_three [⟨"a.png"⟩, ⟨"b.png"⟩]
    [⟨"c.png"⟩, ⟨"d.png"⟩] (by decide)

/-- C10: a post-creation attempt with an empty image list or an empty
category list returns after setting an error notification, before any
backend call: no session lookup, no storage upload, and no row insert. -/
theorem handleCreate_empty_inputs_return_before_backend :
    ∀ (images : List ImageFile) (cats : List Category) (qs : List String)
      (profile : Profile) (session : Except String (Option String))
      (env : Nat → Except String String) (ins : Option DbError),
      images = [] ∨ cats = [] →
      (handleCreate images cats qs profile session env ins).notification.map
          Notification.type = some NotificationType.error ∧
        (handleCreate images cats qs profile session env ins).sessionLookups = 0 ∧
        (handleCreate images cats qs profile session env ins).uploadsAttempted = 0 ∧
        (handleCreate images cats qs profile session env ins).inserted = none := by
  intro images cats qs profile session env ins h
  rcases h with h | h
  · subst h
    simp [handleCreate]
  · subst h
    by_cases himg : images.length = 0
    · simp [handleCreate, himg]
    · simp [handleCreate, himg]

/-- Witness for C10 at a concrete input: no image selected, one category. -/
theorem handleCreate_empty_inputs_return_before_backend_witness :
    (handleCreate [] [Category.Social] ["", "q", ""] sampleProfile
          (Except.ok (some "alice-id")) (fun _ => Except.ok "url") none).notification.map
        Notification.type = some NotificationType.error ∧
      (handleCreate [] [Category.Social] ["", "q", ""] sampleProfile
          (Except.ok (some "alice-id")) (fun _ => Except.ok "url") none).sessionLookups = 0 ∧
      (handleCreate [] [Category.Social] ["", "q", ""] sampleProfile
          (Except.ok (some "alice-id")) (fun _ => Except.ok "url") none).uploadsAttempted = 0 ∧
      (handleCreate [] [Category.Social] ["", "q", ""] sampleProfile
          (Except.ok (some "alice-id")) (fun _ => Except.ok "url") none).inserted = none :=
  handleCreate_empty_inputs_return_before_backend [] [Category.Social]
    ["", "q", ""] sampleProfile (Except.ok (some "alice-id"))
    (fun _ => Except.ok "url") none (Or.inl rfl)

/-- C2: a review submission that completes bumps the reviewed post's
received-review count by exactly 1 via `increment_post_reviews`, and lowers
the reviewing profile's unlock counter by exactly 1 floored at 0 via
`decrement_profile_unlock_counter` (a counter already at 0 stays 0). -/
theorem handleSubmit_increments_post_and_decrements_counter :
    ∀ (b : Backend) (postId uid : String) (r : Ratings) (ans : List String)
      (g : String) (anon : Bool) (p : PostPayload) (pr : Profile) (c : Int),
      b.posts postId = Slot.present p →
      b.profiles uid = some pr →
      pr.posts_remaining_to_unlock = some c →
      0 ≤ c →
      (handleSubmit b postId (some uid) r ans g anon).posts postId =
          Slot.present { p with reviews_received := p.reviews_received + 1 } ∧
        (handleSubmit b postId (some uid) r ans g anon).profiles uid =
          some { pr with
                 posts_remaining_to_unlock := some (if c = 0 then 0 else c - 1) } := by
  intro b postId uid r ans g anon p pr c hp hpr hc hcn
  have hmax : max 0 (c - 1) = if c = 0 then 0 else c - 1 := by
    by_cases h0 : c = 0
    · subst h0; norm_num
    · rw [if_neg h0, max_eq_right (by omega)]
  constructor
  · show increment_post_reviews b.posts postId postId = _
    simp only [increment_post_reviews, if_true]
    rw [hp]
  · show decrement_profile_unlock_counter b.profiles uid uid = _
    simp only [decrement_profile_unlock_counter, if_true]
    rw [hpr]
    simp only [Option.map_some', hc, greatestZeroDec, Option.some.injEq]
    rw [hmax]

/-- Witness for C2 at a concrete input: a review submitted by `sampleProfile`
(counter 2) against `samplePost` (0 reviews received). -/
theorem handleSubmit_increments_post_and_decrements_counter_witness :
    (handleSubmit sampleBackend "post-1" (some "alice-id") ⟨7, 8, 6⟩
          ["a", "", ""] "nice shot" true).posts "post-1" =
        Slot.present { samplePost with
                       reviews_received := samplePost.reviews_received + 1 } ∧
      (handleSubmit sampleBackend "post-1" (some "alice-id") ⟨7, 8, 6⟩
          ["a", "", ""] "nice shot" true).profiles "alice-id" =
        some { sampleProfile with
               posts_remaining_to_unlock :=
                 some (if (2 : Int) = 0 then 0 else 2 - 1) } :=
  handleSubmit_increments_post_and_decrements_counter sampleBackend "post-1"
    "alice-id" ⟨7, 8, 6⟩ ["a", "", ""] "nice shot" true samplePost sampleProfile
    2 rfl rfl rfl (by norm_num)

/-- An id holding a deleted row stays deleted under every operation: inserts
only land on never-allocated ids. -/
theorem applyOp_deleted (t : PostsTable) (op : AppOp) (pid : String)
    (h : t pid = Slot.deleted) : applyOp t op pid = Slot.deleted := by
  cases op with
  | insert pid' payload =>
    show insertPost t pid' payload pid = Slot.deleted
    unfold insertPost
    cases hf : t pid' with
    | free =>
      by_cases hpp : pid = pid'
      · rw [hpp] at h; rw [h] at hf; exact Slot.noConfusion hf
      · simp [hpp, h]
    | present pp => exact h
    | deleted => exact h
  | makePostLive pid' =>
    show makePostLive t pid' pid = Slot.deleted
    by_cases hpp : pid = pid'
    · subst hpp; simp [makePostLive, h]
    · simp [makePostLive, hpp, h]
  | deletePost pid' =>
    show deletePost t pid' pid = Slot.deleted
    by_cases hpp : pid = pid'
    · subst hpp; simp [deletePost, h]
    · simp [deletePost, hpp, h]
  | incrementPostReviews pid' =>
    show increment_post_reviews t pid' pid = Slot.deleted
    by_cases hpp : pid = pid'
    · subst hpp; simp [increment_post_reviews, h]
    · simp [increment_post_reviews, hpp, h]

/-- An id holding a deleted row stays deleted under every operation
sequence. -/
theorem applyOps_deleted : ∀ (ops : List AppOp) (t : PostsTable) (pid : String),
    t pid = Slot.deleted → applyOps t ops pid = Slot.deleted := by
  intro ops
  induction ops with
  | nil => intro t pid h; exact h
  | cons op rest ih =>
    intro t pid h
    show applyOps (applyOp t op) rest pid = Slot.deleted
    exact ih (applyOp t op) pid (applyOp_deleted t op pid h)

/-- One step from a live row: the row stays present and live, or is deleted. -/
theorem applyOp_live_step (t : PostsTable) (op : AppOp) (pid : String)
    (p : PostPayload) (hp : t pid = Slot.present p) (hl : p.is_live = true) :
    (∃ q, applyOp t op pid = Slot.present q ∧ q.is_live = true) ∨
      applyOp t op pid = Slot.deleted := by
  cases op with
  | insert pid' payload =>
    left
    refine ⟨p, ?_, hl⟩
    show insertPost t pid' payload pid = Slot.present p
    unfold insertPost
    cases hf : t pid' with
    | free =>
      by_cases hpp : pid = pid'
      · rw [hpp] at hp; rw [hp] at hf; exact Slot.noConfusion hf
      · simp [hpp, hp]
    | present pp => exact hp
    | deleted => exact hp
  | makePostLive pid' =>
    left
    by_cases hpp : pid = pid'
    · refine ⟨{ p with is_live := true }, ?_, rfl⟩
      show makePostLive t pid' pid = _
      subst hpp; simp [makePostLive, hp]
    · refine ⟨p, ?_, hl⟩
      show makePostLive t pid' pid = _
      simp [makePostLive, hpp, hp]
  | deletePost pid' =>
    by_cases hpp : pid = pid'
    · right
      show deletePost t pid' pid = Slot.deleted
      subst hpp; simp [deletePost, hp]
    · left
      refine ⟨p, ?_, hl⟩
      show deletePost t pid' pid = _
      simp [deletePost, hpp, hp]
  | incrementPostReviews pid' =>
    left
    by_cases hpp : pid = pid'
    · refine ⟨{ p with reviews_received := p.reviews_received + 1 }, ?_, hl⟩
      show increment_post_reviews t pid' pid = _
      subst hpp; simp [increment_post_reviews, hp]
    · refine ⟨p, ?_, hl⟩
      show increment_post_reviews t pid' pid = _
      simp [increment_post_reviews, hpp, hp]

/-- Liveness is monotone along every operation sequence: a post found live
before and still present after is still live. -/
theorem applyOps_live_mono : ∀ (ops : List AppOp) (t : PostsTable)
    (pid : String) (p q : PostPayload),
    t pid = Slot.present p → p.is_live = true →
    applyOps t ops pid = Slot.present q → q.is_live = true := by
  intro ops
  induction ops with
  | nil =>
    intro t pid p q hp hl hq
    have hq' : t pid = Slot.present q := hq
    rw [hp] at hq'
    injection hq' with h3
    rw [← h3]; exact hl
  | cons op rest ih =>
    intro t pid p q hp hl hq
    have hq' : applyOps (applyOp t op) rest pid = Slot.present q := hq
    rcases applyOp_live_step t op pid p hp hl with ⟨p', hp', hl'⟩ | hdel
    · exact ih (applyOp t op) pid p' q hp' hl' hq'
    · rw [applyOps_deleted rest (applyOp t op) pid hdel] at hq'
      exact Slot.noConfusion hq'

/-- The only single operation that turns a present, locked post into a live
one is the admin override on that post. -/
theorem applyOp_lock_to_live_only_admin :
    ∀ (t : PostsTable) (op : AppOp) (pid : String) (p q : PostPayload),
      t pid = Slot.present p → applyOp t op pid = Slot.present q →
      p.is_live = false → q.is_live = true → op = AppOp.makePostLive pid := by
  intro t op pid p q hp hq hpf hqt
  cases op with
  | insert pid' payload =>
    exfalso
    have hq2 : insertPost t pid' payload pid = Slot.present q := hq
    unfold insertPost at hq2
    cases hf : t pid' with
    | free =>
      rw [hf] at hq2
      by_cases hpp : pid = pid'
      · rw [hpp] at hp; rw [hp] at hf; exact Slot.noConfusion hf
      · have hq3 : t pid = Slot.present q := by
          have hq4 : (if pid = pid' then Slot.present payload else t pid) =
              Slot.present q := hq2
          rwa [if_neg hpp] at hq4
        rw [hp] at hq3
        injection hq3 with h3
        rw [← h3, hpf] at hqt
        exact Bool.false_ne_true hqt
    | present pp =>
      rw [hf] at hq2
      have hq3 : t pid = Slot.present q := hq2
      rw [hp] at hq3
      injection hq3 with h3
      rw [← h3, hpf] at hqt
      exact Bool.false_ne_true hqt
    | deleted =>
      rw [hf] at hq2
      have hq3 : t pid = Slot.present q := hq2
      rw [hp] at hq3
      injection hq3 with h3
      rw [← h3, hpf] at hqt
      exact Bool.false_ne_true hqt
  | makePostLive pid' =>
    by_cases hpp : pid = pid'
    · rw [hpp]
    · exfalso
      have hq2 : makePostLive t pid' pid = Slot.present q := hq
      simp only [makePostLive] at hq2
      rw [if_neg hpp, hp] at hq2
      injection hq2 with h3
      rw [← h3, hpf] at hqt
      exact Bool.false_ne_true hqt
  | deletePost pid' =>
    exfalso
    have hq2 : deletePost t pid' pid = Slot.present q := hq
    simp only [deletePost] at hq2
    by_cases hpp : pid = pid'
    · rw [if_pos hpp, hp] at hq2
      simp at hq2
    · rw [if_neg hpp, hp] at hq2
      injection hq2 with h3
      rw [← h3, hpf] at hqt
      exact Bool.false_ne_true hqt
  | incrementPostReviews pid' =>
    exfalso
    have hq2 : increment_post_reviews t pid' pid = Slot.present q := hq
    simp only [increment_post_reviews] at hq2
    by_cases hpp : pid = pid'
    · rw [if_pos hpp, hp] at hq2
      have hq3 : Slot.present { p with reviews_received := p.reviews_received + 1 } =
          Slot.present q := hq2
      injection hq3 with h3
      rw [← h3, hpf] at hqt
      exact Bool.false_ne_true hqt
    · rw [if_neg hpp, hp] at hq2
      injection hq2 with h3
      rw [← h3, hpf] at hqt
      exact Bool.false_ne_true hqt

/-- C9: once a post's liveness flag is true it never becomes false again
through any posts-writing operation of the application, and the only single
operation that moves a present post from locked to live is the admin
override on it; there is no Live→Locked transition. -/
theorem post_liveness_never_reverts :
    (∀ (ops : List AppOp) (t : PostsTable) (pid : String) (p q : PostPayload),
        t pid = Slot.present p → p.is_live = true →
        applyOps t ops pid = Slot.present q → q.is_live = true) ∧
      (∀ (t : PostsTable) (op : AppOp) (pid : String) (p q : PostPayload),
        t pid = Slot.present p → applyOp t op pid = Slot.present q →
        p.is_live = false → q.is_live = true → op = AppOp.makePostLive pid) :=
  ⟨applyOps_live_mono, applyOp_lock_to_live_only_admin⟩

/-- Witness for C9 at a concrete input: the live `samplePost` stays live
after a review increment followed by an unrelated admin override. -/
theorem post_liveness_never_reverts_witness :
    ({ samplePost with
       reviews_received := samplePost.reviews_received + 1 } : PostPayload).is_live =
      true :=
  post_liveness_never_reverts.1
    [AppOp.incrementPostReviews "post-1", AppOp.makePostLive "other-post"]
    sampleBackend.posts "post-1" samplePost
    { samplePost with reviews_received := samplePost.reviews_received + 1 }
    rfl rfl (by decide)

end RateLook
